import Mathlib

/-!
Shallow embedding of the `cleanup_toolkit` Python package
(`cleanup_toolkit/analyzers.py`, `cleanup_toolkit/core.py`,
`cleanup_toolkit/commands.py`) together with theorems settling the
frozen claims about its specification.

Modelling conventions:
* The filesystem is passed explicitly as a value of type `FS`
  (existence check and text read per path); a raised `IOError` /
  `UnicodeDecodeError` is modelled as `Except.error msg`.
* Python's `ast.parse` (standard library, external to this repository)
  is passed as an oracle `String → Option (List PyNode)` returning the
  walked node list of the syntax tree, or `none` on a `SyntaxError`.
* `re.compile(p).search` / `.match` are embedded by a small executable
  regex interpreter covering the constructs used by the repository's
  patterns: literal characters, backslash escapes, the class `\s`,
  the quantifiers `*` and `+`, groups of literal alternatives
  `(a|b|c)`, and a leading `^` anchor.  `re.error` on a malformed
  custom pattern is not modelled (the interpreter is total).
* Python `dict`s are insertion-ordered association lists, Python
  `set`s are insertion-ordered duplicate-free lists (their set of
  elements is what theorems speak about).
* `hash(content)` in duplicate detection is modelled as the content
  itself (exact-content fingerprint; hash collisions are not modelled).
* `str(Path(p))` is modelled as `p` itself (path normalisation is not
  modelled; all paths appearing in theorems are already normal).
-/

namespace CleanupToolkit

/-! ### A tiny regex interpreter (model of the parts of `re` the code uses) -/

/-- One atom of a compiled pattern: a literal character, the whitespace
class `\s`, or a group of literal alternatives `(a|b|c)`. -/
inductive RItem where
  | lit (c : Char)
  | ws
  | alt (alts : List (List Char))
  deriving DecidableEq, Repr

/-- Quantifier attached to an atom: exactly one, `*`, or `+`. -/
inductive RQuant where
  | one
  | star
  | plus
  deriving DecidableEq, Repr

/-- Python's `\s` on the ASCII range. -/
def pyIsSpace (c : Char) : Bool :=
  c == ' ' || c == '\t' || c == '\n' || c == '\r' || c == '\x0b' || c == '\x0c'

/-- Character comparison, optionally case-insensitive (`re.IGNORECASE`). -/
def charMatch (ci : Bool) (p c : Char) : Bool :=
  if ci then p.toLower == c.toLower else p == c

/-- Parse a group body up to the closing parenthesis into its literal
alternatives (handling backslash escapes); returns the alternatives and
the remaining input. -/
def parseAlts : List Char → List Char → List (List Char) → List (List Char) × List Char
  | [], cur, acc => (acc ++ [cur.reverse], [])
  | ')' :: rest, cur, acc => (acc ++ [cur.reverse], rest)
  | '|' :: rest, cur, acc => parseAlts rest [] (acc ++ [cur.reverse])
  | '\\' :: c :: rest, cur, acc => parseAlts rest (c :: cur) acc
  | c :: rest, cur, acc => parseAlts rest (c :: cur) acc

/-- Parse a pattern string into a sequence of quantified atoms.  A
leading `^` is dropped (it only occurs in the anchored comment-line
patterns, which are evaluated with the anchored matcher below). -/
def parseItems : Nat → List Char → List (RItem × RQuant)
  | 0, _ => []
  | fuel + 1, s =>
    match s with
    | [] => []
    | '^' :: rest => parseItems fuel rest
    | _ =>
      let step : RItem × List Char :=
        match s with
        | '\\' :: 's' :: rest => (RItem.ws, rest)
        | '\\' :: c :: rest => (RItem.lit c, rest)
        | '(' :: rest =>
          let pr := parseAlts rest [] []
          (RItem.alt pr.1, pr.2)
        | c :: rest => (RItem.lit c, rest)
        | [] => (RItem.lit ' ', [])
      match step.2 with
      | '*' :: r => (step.1, RQuant.star) :: parseItems fuel r
      | '+' :: r => (step.1, RQuant.plus) :: parseItems fuel r
      | r => (step.1, RQuant.one) :: parseItems fuel r

/-- Compile a pattern string. -/
def parseRegex (pat : String) : List (RItem × RQuant) :=
  parseItems (pat.length + 1) pat.toList

/-- Does `alt` occur as a prefix of `s`?  Returns the remainder. -/
def dropLits (ci : Bool) : List Char → List Char → Option (List Char)
  | [], s => some s
  | _ :: _, [] => none
  | p :: ps, c :: cs => if charMatch ci p c then dropLits ci ps cs else none

/-- All ways one atom can consume a prefix of `s`. -/
def itemHead (ci : Bool) : RItem → List Char → List (List Char)
  | RItem.lit p, c :: cs => if charMatch ci p c then [cs] else []
  | RItem.lit _, [] => []
  | RItem.ws, c :: cs => if pyIsSpace c then [cs] else []
  | RItem.ws, [] => []
  | RItem.alt alts, s => alts.filterMap (fun a => dropLits ci a s)

/-- Backtracking matcher: does the item sequence match a prefix of `s`?
`fuel` bounds the recursion depth (any value at least
`items.length + s.length + 1` is exact for patterns whose group
alternatives are non-empty). -/
def matchSeq (ci : Bool) : Nat → List (RItem × RQuant) → List Char → Bool
  | 0, _, _ => false
  | _ + 1, [], _ => true
  | fuel + 1, (it, RQuant.one) :: rest, s =>
    (itemHead ci it s).any (fun r => matchSeq ci fuel rest r)
  | fuel + 1, (it, RQuant.plus) :: rest, s =>
    (itemHead ci it s).any (fun r => matchSeq ci fuel ((it, RQuant.star) :: rest) r)
  | fuel + 1, (it, RQuant.star) :: rest, s =>
    matchSeq ci fuel rest s ||
      (itemHead ci it s).any (fun r => matchSeq ci fuel ((it, RQuant.star) :: rest) r)

/-- Model of `re.compile(pat, flags).search(line) is not None`:
the compiled pattern matches starting at some position of `line`. -/
def reSearch (ci : Bool) (pat line : String) : Bool :=
  let items := parseRegex pat
  let fuel := pat.length + line.length + 2
  line.toList.tails.any (fun s => matchSeq ci fuel items s)

/-- Model of `re.compile(pat).match(line) is not None`: anchored at the
start of `line` (used for the comment-line patterns, which begin with `^`). -/
def reMatchStart (ci : Bool) (pat line : String) : Bool :=
  matchSeq ci (pat.length + line.length + 2) (parseRegex pat) line.toList

/-! ### Python string / container helpers -/

/-- Python `str.splitlines()`: split at `\n`, `\r\n` or `\r`; no empty
trailing element for a trailing newline. -/
def splitlinesAux : List Char → List Char → List String
  | [], acc => if acc.isEmpty then [] else [String.mk acc.reverse]
  | '\r' :: '\n' :: rest, acc => String.mk acc.reverse :: splitlinesAux rest []
  | '\n' :: rest, acc => String.mk acc.reverse :: splitlinesAux rest []
  | '\r' :: rest, acc => String.mk acc.reverse :: splitlinesAux rest []
  | c :: rest, acc => splitlinesAux rest (c :: acc)

/-- Python `content.splitlines()`. -/
def pySplitlines (content : String) : List String :=
  splitlinesAux content.toList []

/-- Python `line.strip()` (whitespace from both ends). -/
def pyStrip (s : String) : String :=
  String.mk (((s.toList.dropWhile pyIsSpace).reverse.dropWhile pyIsSpace).reverse)

/-- Python `needle in hay` on strings (substring containment). -/
def pyContainsStr (hay needle : String) : Bool :=
  hay.toList.tails.any (fun t => (dropLits false needle.toList t).isSome)

/-- Python `s.endswith(suffix)`. -/
def pyEndsWith (s suffix : String) : Bool :=
  (dropLits false suffix.toList.reverse s.toList.reverse).isSome

/-- Python `s.lower()` (ASCII). -/
def pyLower (s : String) : String := String.mk (s.toList.map Char.toLower)

/-- `d.get(k)` on an insertion-ordered dict modelled as an association list. -/
def lookupA {α : Type} : List (String × α) → String → Option α
  | [], _ => none
  | (k, v) :: rest, key => if k == key then some v else lookupA rest key

/-- `d[k] = f d[k]` on the association-list model (key assumed present). -/
def updateA {α : Type} : List (String × α) → String → (α → α) → List (String × α)
  | [], _, _ => []
  | (k, v) :: rest, key, f =>
    if k == key then (k, f v) :: rest else (k, v) :: updateA rest key f

/-- Python `enumerate(lines, 1)`. -/
def enum1 : Nat → List String → List (Nat × String)
  | _, [] => []
  | i, l :: ls => (i, l) :: enum1 (i + 1) ls

/-- Python `name.split(".")[0]`: the text before the first dot (the
whole string when there is none). -/
def firstSegment (name : String) : String :=
  String.mk (name.toList.takeWhile (fun c => c ≠ '.'))

/-- Add to a Python `set` modelled as an insertion-ordered duplicate-free
list. -/
def insertNew (l : List String) (x : String) : List String :=
  if l.contains x then l else l ++ [x]

/-- `pathlib.Path(p).suffix.lower()`: the lower-cased extension of the
final path component (empty when there is no interior dot). -/
def pySuffix (p : String) : String :=
  let name := ((p.toList.reverse.takeWhile (fun c => c ≠ '/')).reverse)
  match name.reverse.findIdx? (fun c => c = '.') with
  | none => ""
  | some j =>
    let i := name.length - 1 - j
    if 0 < i ∧ i < name.length - 1 then pyLower (String.mk (name.drop i)) else ""

/-! ### `analyzers.PatternMatcher` -/

/-- The value stored under one category key of `PatternMatcher.patterns`:
either a language-keyed dict of pattern lists (`debug`) or a flat
pattern list (`todo`). -/
inductive Bucket where
  | dict (d : List (String × List String))
  | flat (l : List String)
  deriving DecidableEq, Repr

/-- `analyzers.PatternMatcher`: mutable pattern registry, modelled as an
explicit value threaded through the operations. -/
structure PatternMatcher where
  patterns : List (String × Bucket)
  deriving DecidableEq, Repr

/-- The python entry of the seeded `debug` bucket. -/
def pythonDebugPatterns : List String :=
  ["print\\s*\\(", "breakpoint\\s*\\(\\)", "import\\s+pdb",
   "pdb\\.set_trace", "import\\s+ipdb", "ipdb\\.set_trace"]

/-- The javascript entry of the seeded `debug` bucket. -/
def javascriptDebugPatterns : List String :=
  ["console\\.(log|debug|info|warn|error)", "debugger\\s*;", "alert\\s*\\("]

/-- The go entry of the seeded `debug` bucket. -/
def goDebugPatterns : List String :=
  ["fmt\\.Print", "log\\.Print", "println\\("]

/-- The seeded language-independent `todo` bucket. -/
def defaultTodoPatterns : List String :=
  ["#\\s*(TODO|FIXME|XXX|HACK|NOTE):",
   "//\\s*(TODO|FIXME|XXX|HACK|NOTE):",
   "/\\*\\s*(TODO|FIXME|XXX|HACK|NOTE):"]

/-- The registry seeded by `PatternMatcher.__init__`. -/
def defaultPatternMatcher : PatternMatcher :=
  ⟨[("debug", Bucket.dict
      [("python", pythonDebugPatterns),
       ("javascript", javascriptDebugPatterns),
       ("go", goDebugPatterns)]),
    ("todo", Bucket.flat defaultTodoPatterns)]⟩

/-- One issue record.  `find_patterns` produces all four fields
(`line`, stripped `content`, `pattern`, `type`); the engine's records
carry no `pattern` key and the synthetic unused-import records carry
neither `line` nor `pattern`, which is modelled by `none`. -/
structure Issue where
  line : Option Nat
  content : String
  pattern : Option String
  type : String
  deriving DecidableEq, Repr

/-- Python truthiness of an optional string argument (`if language:`). -/
def pyTruthy : Option String → Bool
  | none => false
  | some s => !s.isEmpty

/-- The pattern list selected by the dispatch at the top of
`PatternMatcher.find_patterns`.  The fallback arms of the two inner
matches are unreachable from `__init__`: the `debug` bucket is seeded
as a dict and the `todo` bucket as a list, and `add_custom_pattern`
never changes a bucket's shape (iterating a dict would yield its keys,
which the second arm of the `todo` case reflects). -/
def patternsFor (pm : PatternMatcher) (pattern_type : String) (language : Option String) :
    List String :=
  if pattern_type == "debug" && pyTruthy language then
    match lookupA pm.patterns "debug" with
    | some (Bucket.dict d) => (lookupA d (language.getD "")).getD []
    | _ => []
  else if pattern_type == "todo" then
    match lookupA pm.patterns "todo" with
    | some (Bucket.flat l) => l
    | some (Bucket.dict d) => d.map Prod.fst
    | none => []
  else []

/-- The nested `for pattern_str in patterns: for i, line in enumerate(lines, 1):`
loop shared (in shape) by `PatternMatcher.find_patterns` (`ci = true`,
`withPat = true`) and `CleanupEngine.analyze_file` (`ci = false`,
`withPat = false`, records without a `pattern` key). -/
def scanFold (ci withPat : Bool) (patterns : List String) (lines : List String)
    (pattern_type : String) : List Issue :=
  patterns.foldl
    (fun acc pat =>
      (enum1 1 lines).foldl
        (fun acc2 il =>
          if reSearch ci pat il.2 then
            acc2 ++ [⟨some il.1, pyStrip il.2, if withPat then some pat else none, pattern_type⟩]
          else acc2)
        acc)
    []

/-- The records the scan produces for a single pattern. -/
def scanOne (ci withPat : Bool) (pat : String) (lines : List String)
    (pattern_type : String) : List Issue :=
  (enum1 1 lines).filterMap
    (fun il =>
      if reSearch ci pat il.2 then
        some ⟨some il.1, pyStrip il.2, if withPat then some pat else none, pattern_type⟩
      else none)

/-- `PatternMatcher.find_patterns` (patterns compiled with `re.IGNORECASE`). -/
def find_patterns (pm : PatternMatcher) (content : String) (pattern_type : String)
    (language : Option String) : List Issue :=
  scanFold true true (patternsFor pm pattern_type language) (pySplitlines content) pattern_type

/-- `PatternMatcher.add_custom_pattern`.  `none` models the uncaught
exception the method raises: appending with no language to a dict
bucket (`AttributeError`, including the freshly created empty dict of a
brand-new category) or indexing a flat list bucket with a language
string (`TypeError`). -/
def add_custom_pattern (pm : PatternMatcher) (pattern_type pattern : String)
    (language : Option String) : Option PatternMatcher :=
  let pm : PatternMatcher :=
    if (lookupA pm.patterns pattern_type).isNone then
      ⟨pm.patterns ++ [(pattern_type, Bucket.dict [])]⟩
    else pm
  if pyTruthy language then
    let lang := language.getD ""
    match lookupA pm.patterns pattern_type with
    | some (Bucket.dict d) =>
      let d := if (lookupA d lang).isNone then d ++ [(lang, [])] else d
      some ⟨updateA pm.patterns pattern_type
        (fun _ => Bucket.dict (updateA d lang (fun l => l ++ [pattern])))⟩
    | _ => none
  else
    match lookupA pm.patterns pattern_type with
    | some (Bucket.flat l) =>
      some ⟨updateA pm.patterns pattern_type (fun _ => Bucket.flat (l ++ [pattern]))⟩
    | _ => none

/-! ### `analyzers.CodeAnalyzer` -/

/-- The analyzer's extension table (`CodeAnalyzer.supported_languages`). -/
def supported_languages : List (String × String) :=
  [(".py", "python"), (".js", "javascript"), (".jsx", "javascript"),
   (".ts", "javascript"), (".tsx", "javascript"), (".go", "go"),
   (".java", "java"), (".rb", "ruby"), (".php", "php")]

/-- `CodeAnalyzer._detect_language`. -/
def detect_language (file_path : String) : String :=
  (lookupA supported_languages (pySuffix file_path)).getD "unknown"

/-- `CodeAnalyzer._is_code_file`. -/
def is_code_file (file_path : String) : Bool :=
  (lookupA supported_languages (pySuffix file_path)).isSome

/-- The comment-line-start table of `CodeAnalyzer._count_comment_lines`. -/
def comment_patterns : List (String × String) :=
  [("python", "^\\s*#"), ("javascript", "^\\s*(//|/\\*|\\*)"),
   ("go", "^\\s*//"), ("java", "^\\s*(//|/\\*|\\*)")]

/-- `CodeAnalyzer._count_comment_lines` (patterns compiled without
`re.IGNORECASE` and evaluated with `pattern.match`). -/
def count_comment_lines (lines : List String) (language : String) : Nat :=
  match lookupA comment_patterns language with
  | none => 0
  | some pat => (lines.filter (fun line => reMatchStart false pat line)).length

/-- The nodes `ast.walk` yields, restricted to the constructors the
analyzer dispatches on; every other node kind is `other`.  Import
aliases are pairs of the dotted module name and the optional `as` name. -/
inductive PyNode where
  | importStmt (names : List (String × Option String))
  | importFrom (names : List (String × Option String))
  | name (id : String)
  | classDef
  | functionDef
  | other
  deriving DecidableEq, Repr

/-- The `ast.parse` + `ast.walk` oracle: the walked node list of the
syntax tree of a content string, or `none` on a `SyntaxError`. -/
def PyParse : Type := String → Option (List PyNode)

/-- The filesystem the analyzed paths live on: existence test and text
read (a raised `OSError` / `UnicodeDecodeError` is `Except.error msg`). -/
structure FS where
  pathExists : String → Bool
  read : String → Except String String

/-- The `imported_names` set of `CodeAnalyzer.find_unused_imports`:
the alias if present, else the first dotted segment for `import`, the
plain name for `from ... import`. -/
def importedNames (nodes : List PyNode) : List String :=
  nodes.foldl
    (fun acc n =>
      match n with
      | PyNode.importStmt names =>
        names.foldl (fun a al => insertNew a (al.2.getD (firstSegment al.1))) acc
      | PyNode.importFrom names =>
        names.foldl (fun a al => insertNew a (al.2.getD al.1)) acc
      | _ => acc)
    []

/-- The `used_names` set of `CodeAnalyzer.find_unused_imports`: every
`ast.Name` identifier. -/
def usedNames (nodes : List PyNode) : List String :=
  nodes.foldl
    (fun acc n =>
      match n with
      | PyNode.name id => insertNew acc id
      | _ => acc)
    []

/-- `CodeAnalyzer.find_unused_imports`: empty for non-`.py` paths and on
any read or parse failure, else the imported names never referenced
(`list(imported_names - used_names)`, as the ordered-set difference). -/
def find_unused_imports (pp : PyParse) (fs : FS) (file_path : String) : List String :=
  if !pyEndsWith file_path ".py" then []
  else
    match fs.read file_path with
    | Except.error _ => []
    | Except.ok content =>
      match pp content with
      | none => []
      | some nodes =>
        (importedNames nodes).filter (fun x => !(usedNames nodes).contains x)

/-- The secondary structural block `CodeAnalyzer._analyze_python`
computes; `parseFailed` is the empty dict it returns on a `SyntaxError`. -/
inductive PyAnalysis where
  | parseFailed
  | counts (classes functions imports : Nat)
  deriving DecidableEq, Repr

/-- `CodeAnalyzer._analyze_python`. -/
def analyze_python (pp : PyParse) (content : String) : PyAnalysis :=
  match pp content with
  | none => PyAnalysis.parseFailed
  | some nodes =>
    PyAnalysis.counts
      (nodes.filter (fun n => match n with | PyNode.classDef => true | _ => false)).length
      (nodes.filter (fun n => match n with | PyNode.functionDef => true | _ => false)).length
      (nodes.filter
        (fun n => match n with
          | PyNode.importStmt _ => true
          | PyNode.importFrom _ => true
          | _ => false)).length

/-- The per-file metrics dict of `CodeAnalyzer.analyze`. -/
structure Metrics where
  total_lines : Nat
  blank_lines : Nat
  comment_lines : Nat
  debug_statements : Nat
  todos : Nat
  deriving DecidableEq, Repr

/-- The result dict of `CodeAnalyzer.analyze`.  `none` models an absent
key (the not-found result carries only `error`; `metrics` stays at its
initial empty dict when the read fails). -/
structure AnalyzeResult where
  file : Option String
  language : Option String
  issues : List Issue
  metrics : Option Metrics
  python_analysis : Option PyAnalysis
  error : Option String
  deriving DecidableEq, Repr

/-- `CodeAnalyzer.analyze`. -/
def analyze (pp : PyParse) (fs : FS) (pm : PatternMatcher) (file_path : String) :
    AnalyzeResult :=
  if !fs.pathExists file_path then
    ⟨none, none, [], none, none, some "File not found"⟩
  else
    let language := detect_language file_path
    match fs.read file_path with
    | Except.error e => ⟨some file_path, some language, [], none, none, some e⟩
    | Except.ok content =>
      let debug_matches := find_patterns pm content "debug" (some language)
      let todo_matches := find_patterns pm content "todo" none
      let lines := pySplitlines content
      let metrics : Metrics :=
        ⟨lines.length,
         (lines.filter (fun line => (pyStrip line).isEmpty)).length,
         count_comment_lines lines language,
         debug_matches.length,
         todo_matches.length⟩
      ⟨some file_path, some language, debug_matches ++ todo_matches, some metrics,
       if language == "python" then some (analyze_python pp content) else none,
       none⟩

/-- One reported duplicate (`{"file1": ..., "file2": ..., "type": ...}`). -/
structure DupPair where
  file1 : String
  file2 : String
  type : String
  deriving DecidableEq, Repr

/-- The loop body of `CodeAnalyzer.find_duplicates`: `seen` is the
`file_hashes` dict keyed by the content fingerprint. -/
def findDuplicatesGo : List (String × Except String String) → List (String × String) →
    List DupPair
  | [], _ => []
  | (p, r) :: rest, seen =>
    if is_code_file p then
      match r with
      | Except.error _ => findDuplicatesGo rest seen
      | Except.ok content =>
        match lookupA seen content with
        | some first => ⟨first, p, "exact_duplicate"⟩ :: findDuplicatesGo rest seen
        | none => findDuplicatesGo rest (seen ++ [(content, p)])
    else findDuplicatesGo rest seen

/-- `CodeAnalyzer.find_duplicates` over the recursive directory walk,
given as the traversal-ordered list of regular files paired with the
result of reading each one (`Except.error` for an unreadable file). -/
def find_duplicates (walk : List (String × Except String String)) : List DupPair :=
  findDuplicatesGo walk []

/-! ### `core.CleanupConfig` and `core.CleanupEngine` -/

/-- `core.CleanupConfig` (the fields the engine and command read). -/
structure CleanupConfig where
  auto_fix : Bool
  exclude_patterns : List String
  debug_patterns : List (String × List String)
  deriving DecidableEq, Repr

/-- The configuration built by `CleanupConfig.__init__`. -/
def defaultConfig : CleanupConfig :=
  ⟨false,
   ["*.min.js", "node_modules/", "vendor/", "__pycache__/", ".git/"],
   [("python", ["print\\(", "breakpoint\\(\\)", "import pdb"]),
    ("javascript", ["console\\.(log|debug|info)", "debugger;"]),
    ("go", ["fmt\\.Print", "log\\.Print"])]⟩

/-- `CleanupConfig.is_excluded`: substring containment of any exclusion
rule in the path's string form. -/
def is_excluded (cfg : CleanupConfig) (file_path : String) : Bool :=
  cfg.exclude_patterns.any (fun pattern => pyContainsStr file_path pattern)

/-- `CleanupEngine.stats` (the RunStatistics accumulator). -/
structure Stats where
  files_processed : Nat
  issues_found : Nat
  issues_fixed : Nat
  debug_statements : Nat
  todos : Nat
  duplicates : Nat
  deriving DecidableEq, Repr

/-- The all-zero statistics `CleanupEngine.__init__` starts from. -/
def initStats : Stats := ⟨0, 0, 0, 0, 0, 0⟩

/-- `CleanupEngine.get_summary` (`self.stats.copy()`). -/
def get_summary (stats : Stats) : Stats := stats

/-- `CleanupEngine._detect_language` (a wider table than the analyzer's). -/
def engineDetectLanguage (file_path : String) : String :=
  (lookupA
    [(".py", "python"), (".js", "javascript"), (".jsx", "javascript"),
     (".ts", "javascript"), (".tsx", "javascript"), (".go", "go"),
     (".java", "java"), (".rb", "ruby"), (".php", "php"),
     (".c", "c"), (".cpp", "cpp"), (".cs", "csharp"), (".rs", "rust")]
    (pySuffix file_path)).getD "unknown"

/-- The result dict of `CleanupEngine.analyze_file`: the skipped marker
for an excluded path, or the per-file record (with `error` set when the
read raised). -/
inductive EngineResult where
  | skipped (reason : String)
  | done (file : String) (issues : List Issue) (error : Option String)
  deriving DecidableEq, Repr

/-- `CleanupEngine.analyze_file`: exclusion is checked before the read;
its patterns are compiled without `re.IGNORECASE`, its records carry no
`pattern` key, and the statistics counters are bumped per recorded
issue plus once per successfully processed file. -/
def engineAnalyzeFile (cfg : CleanupConfig) (stats : Stats) (fs : FS)
    (file_path : String) : EngineResult × Stats :=
  if is_excluded cfg file_path then (EngineResult.skipped "excluded", stats)
  else
    match fs.read file_path with
    | Except.error e => (EngineResult.done file_path [] (some e), stats)
    | Except.ok content =>
      let lines := pySplitlines content
      let language := engineDetectLanguage file_path
      let dbg := scanFold false false ((lookupA cfg.debug_patterns language).getD []) lines
        "debug"
      let tds := scanFold false false ["(TODO|FIXME|XXX|HACK):"] lines "todo"
      let issues := dbg ++ tds
      (EngineResult.done file_path issues none,
       ⟨stats.files_processed + 1, stats.issues_found + issues.length,
        stats.issues_fixed, stats.debug_statements + dbg.length,
        stats.todos + tds.length, stats.duplicates⟩)

/-! ### `commands.CleanupCommand` -/

/-- The option flags of `CleanupCommand.run` that the processing loop
reads (`docs` is accepted and ignored by the source, so it is omitted;
the `auto_fix` branch of `_process_file` is `pass` and is not modelled). -/
structure RunOpts where
  debug : Bool
  todos : Bool
  duplicates : Bool
  unused : Bool
  test_mode : Bool
  language : Option String
  deriving DecidableEq, Repr

/-- `CleanupCommand._matches_language`. -/
def matches_language (file_path : String) (language : String) : Bool :=
  ((lookupA
      [("python", [".py"]), ("javascript", [".js", ".jsx", ".ts", ".tsx"]),
       ("go", [".go"]), ("java", [".java"]), ("ruby", [".rb"]), ("php", [".php"])]
      (pyLower language)).getD []).any
    (fun ext => pyEndsWith file_path ext)

/-- The synthetic issue `_process_file` appends per unused import
(`{"type": "unused_import", "content": f"Unused import: ..."}`). -/
def mkUnusedIssue (imp : String) : Issue :=
  ⟨none, "Unused import: " ++ imp, none, "unused_import"⟩

/-- `CleanupCommand._process_file`: analyze, filter the issues down to
the requested categories unless no category flag is set, and append the
synthetic unused-import records for a `.py` path when requested. -/
def process_file (pp : PyParse) (fs : FS) (pm : PatternMatcher) (opts : RunOpts)
    (file_path : String) : AnalyzeResult :=
  let results := analyze pp fs pm file_path
  let results :=
    if !opts.debug && !opts.todos && !opts.unused then results
    else
      ⟨results.file, results.language,
       results.issues.filter
         (fun issue =>
           (opts.debug && issue.type == "debug") || (opts.todos && issue.type == "todo")),
       results.metrics, results.python_analysis, results.error⟩
  if opts.unused && pyEndsWith file_path ".py" then
    ⟨results.file, results.language,
     results.issues ++ (find_unused_imports pp fs file_path).map mkUnusedIssue,
     results.metrics, results.python_analysis, results.error⟩
  else results

/-- The dict `CleanupCommand.run` returns: either the early
`{"error": "No files to process"}` or the populated summary. -/
structure RunResult where
  error : Option String
  files_analyzed : Nat
  issues_found : Nat
  issues_fixed : Nat
  details : List AnalyzeResult
  duplicates : Option (List DupPair)
  summary : Option Stats
  deriving DecidableEq, Repr

/-- `CleanupCommand.run` on an explicitly supplied target-file list
(`_get_target_files` returns `files` unchanged when it is non-empty).
`engineStats` is `self.engine.stats` — `initStats` for a freshly
constructed command — and `cwdWalk` is the directory walk of the
current working directory handed to `find_duplicates` when requested.
The loop skips files failing the language filter but `files_analyzed`
is `len(target_files)` regardless, and nothing in the loop touches the
engine, so the final `self.engine.get_summary()` snapshot is
`engineStats` unchanged. -/
def run (pp : PyParse) (fs : FS) (pm : PatternMatcher) (engineStats : Stats)
    (cwdWalk : List (String × Except String String)) (files : List String)
    (opts : RunOpts) : RunResult :=
  if files.isEmpty then ⟨some "No files to process", 0, 0, 0, [], none, none⟩
  else
    let processed := files.filter
      (fun f =>
        match opts.language with
        | none => true
        | some l => if l.isEmpty then true else matches_language f l)
    let details := processed.map (process_file pp fs pm opts)
    ⟨none, files.length, (details.map (fun d => d.issues.length)).sum, 0, details,
     if opts.duplicates then some (find_duplicates cwdWalk) else none,
     some (get_summary engineStats)⟩

/-! ### Structural lemmas about the line scanner -/

/-- Appending-style fold equals the accumulator followed by a filterMap. -/
theorem foldl_append_filterMap {α β : Type} (p : α → Bool) (f : α → β) :
    ∀ (l : List α) (acc : List β),
      l.foldl (fun a x => if p x then a ++ [f x] else a) acc =
        acc ++ l.filterMap (fun x => if p x then some (f x) else none) := by
  intro l
  induction l with
  | nil => intro acc; simp
  | cons x xs ih =>
    intro acc
    by_cases h : p x = true
    · simp [List.foldl_cons, h, ih]
    · simp only [Bool.not_eq_true] at h
      simp [List.foldl_cons, h, ih]

/-- The inner loop of `scanFold` for one pattern, starting from an
arbitrary accumulator. -/
theorem scanFold_inner (ci withPat : Bool) (pat : String) (lines : List String)
    (t : String) (acc : List Issue) :
    (enum1 1 lines).foldl
        (fun acc2 il =>
          if reSearch ci pat il.2 then
            acc2 ++ [⟨some il.1, pyStrip il.2, if withPat then some pat else none, t⟩]
          else acc2)
        acc =
      acc ++ scanOne ci withPat pat lines t := by
  simpa [scanOne] using
    foldl_append_filterMap (fun il : Nat × String => reSearch ci pat il.2)
      (fun il : Nat × String =>
        (⟨some il.1, pyStrip il.2, if withPat then some pat else none, t⟩ : Issue))
      (enum1 1 lines) acc

/-- `scanFold` groups its output by pattern, in pattern-list order. -/
theorem scanFold_eq_flatMap (ci withPat : Bool) (patterns : List String)
    (lines : List String) (t : String) :
    scanFold ci withPat patterns lines t =
      patterns.flatMap (fun pat => scanOne ci withPat pat lines t) := by
  have general :
      ∀ (ps : List String) (acc : List Issue),
        ps.foldl
            (fun acc pat =>
              (enum1 1 lines).foldl
                (fun acc2 il =>
                  if reSearch ci pat il.2 then
                    acc2 ++ [⟨some il.1, pyStrip il.2, if withPat then some pat else none, t⟩]
                  else acc2)
                acc)
            acc =
          acc ++ ps.flatMap (fun pat => scanOne ci withPat pat lines t) := by
    intro ps
    induction ps with
    | nil => intro acc; simp
    | cons q qs ih =>
      intro acc
      rw [List.foldl_cons, scanFold_inner, ih, List.flatMap_cons, List.append_assoc]
  simpa [scanFold] using general patterns []

/-- A guarded `filterMap` is a `map` over a `filter`. -/
theorem filterMap_guard_eq_map_filter {α β : Type} (p : α → Bool) (f : α → β) :
    ∀ l : List α,
      l.filterMap (fun x => if p x then some (f x) else none) = (l.filter p).map f := by
  intro l
  induction l with
  | nil => simp
  | cons x xs ih =>
    by_cases h : p x = true
    · simp [h, ih]
    · simp only [Bool.not_eq_true] at h
      simp [h, ih]

/-- Every entry of `enum1 i ls` has first component at least `i`. -/
theorem enum1_fst_le (ls : List String) : ∀ (i : Nat) (x : Nat × String),
    x ∈ enum1 i ls → i ≤ x.1 := by
  induction ls with
  | nil => intro i x hx; simp [enum1] at hx
  | cons l ls ih =>
    intro i x hx
    simp only [enum1, List.mem_cons] at hx
    rcases hx with rfl | hx
    · exact Nat.le_refl i
    · exact Nat.le_of_succ_le (ih (i + 1) x hx)

/-- The line numbers of `enum1 i ls` are strictly increasing. -/
theorem enum1_pairwise (ls : List String) : ∀ i : Nat,
    (enum1 i ls).Pairwise (fun a b => a.1 < b.1) := by
  induction ls with
  | nil => intro i; simp [enum1]
  | cons l ls ih =>
    intro i
    refine List.Pairwise.cons ?_ (ih (i + 1))
    intro x hx
    exact Nat.lt_of_lt_of_le (Nat.lt_succ_self i) (enum1_fst_le ls (i + 1) x hx)

/-- The second components of `enum1 i ls` are the lines themselves. -/
theorem enum1_map_snd (ls : List String) : ∀ i : Nat, (enum1 i ls).map Prod.snd = ls := by
  induction ls with
  | nil => intro i; simp [enum1]
  | cons l ls ih => intro i; simp [enum1, ih]

/-- The records `scanOne` produces for one pattern are the matching
entries of the enumerated line list, in order. -/
theorem scanOne_eq_map_filter (ci withPat : Bool) (pat : String) (lines : List String)
    (t : String) :
    scanOne ci withPat pat lines t =
      ((enum1 1 lines).filter (fun il => reSearch ci pat il.2)).map
        (fun il => ⟨some il.1, pyStrip il.2, if withPat then some pat else none, t⟩) := by
  simpa [scanOne] using
    filterMap_guard_eq_map_filter (fun il : Nat × String => reSearch ci pat il.2)
      (fun il : Nat × String =>
        (⟨some il.1, pyStrip il.2, if withPat then some pat else none, t⟩ : Issue))
      (enum1 1 lines)

/-- Filtering the enumerated lines on a property of the line yields as
many entries as filtering the lines themselves. -/
theorem enum1_filter_length (p : String → Bool) (lines : List String) : ∀ i : Nat,
    ((enum1 i lines).filter (fun il => p il.2)).length = (lines.filter p).length := by
  induction lines with
  | nil => intro i; simp [enum1]
  | cons l ls ih =>
    intro i
    by_cases h : p l = true
    · simp [enum1, List.filter_cons, h, ih]
    · simp only [Bool.not_eq_true] at h
      simp [enum1, List.filter_cons, h, ih]

/-- One pattern produces exactly one record per matching line. -/
theorem scanOne_length (ci withPat : Bool) (pat : String) (lines : List String)
    (t : String) :
    (scanOne ci withPat pat lines t).length =
      (lines.filter (fun line => reSearch ci pat line)).length := by
  rw [scanOne_eq_map_filter, List.length_map]
  exact enum1_filter_length (fun line => reSearch ci pat line) lines 1

/-- A `filterMap` that always returns `some` is a `map`. -/
theorem filterMap_always_some {α β : Type} (f : α → β) :
    ∀ l : List α, l.filterMap (fun x => some (f x)) = l.map f := by
  intro l
  induction l with
  | nil => simp
  | cons x xs ih => simp [ih]

/-- Within one pattern the recorded line numbers are strictly increasing. -/
theorem scanOne_lines_sorted (ci withPat : Bool) (pat : String) (lines : List String)
    (t : String) :
    ((scanOne ci withPat pat lines t).filterMap Issue.line).Pairwise (· < ·) := by
  have h1 : (scanOne ci withPat pat lines t).filterMap Issue.line =
      ((enum1 1 lines).filter (fun il => reSearch ci pat il.2)).map
        (fun il : Nat × String => il.1) := by
    rw [scanOne_eq_map_filter, List.filterMap_map]
    exact filterMap_always_some (fun il : Nat × String => il.1) _
  rw [h1]
  exact List.pairwise_map.mpr ((enum1_pairwise lines 1).filter _)

/-- Every record of the scan for pattern `pat` carries `pat` in its
`pattern` field (the `withPat = true` instance used by `find_patterns`). -/
theorem scanOne_filter_self (pat : String) (lines : List String) (t : String) :
    (scanOne true true pat lines t).filter (fun r => r.pattern == some pat) =
      scanOne true true pat lines t := by
  apply List.filter_eq_self.mpr
  intro r hr
  rw [scanOne_eq_map_filter] at hr
  obtain ⟨il, _, rfl⟩ := List.mem_map.mp hr
  simp

/-- Records of the scan for a different pattern never carry `pat`. -/
theorem scanOne_filter_ne (q pat : String) (hq : q ≠ pat) (lines : List String)
    (t : String) :
    (scanOne true true q lines t).filter (fun r => r.pattern == some pat) = [] := by
  apply List.filter_eq_nil_iff.mpr
  intro r hr
  rw [scanOne_eq_map_filter] at hr
  obtain ⟨il, _, rfl⟩ := List.mem_map.mp hr
  simp [hq]

/-- Exhaustive per-pattern counting over the whole scan: each occurrence
of a pattern in the pattern list contributes one record per line it
matches. -/
theorem scanFold_count (P : List String) (lines : List String) (t pat : String) :
    ((scanFold true true P lines t).filter (fun r => r.pattern == some pat)).length =
      P.count pat * (lines.filter (fun line => reSearch true pat line)).length := by
  rw [scanFold_eq_flatMap]
  induction P with
  | nil => simp
  | cons q qs ih =>
    rw [List.flatMap_cons, List.filter_append, List.length_append, ih]
    by_cases hq : q = pat
    · subst hq
      rw [scanOne_filter_self, scanOne_length, List.count_cons_self, Nat.succ_mul,
        Nat.add_comm]
    · rw [scanOne_filter_ne q pat hq, List.count_cons_of_ne (Ne.symm hq)]
      simp

/-! ### Association-list lemmas used by the registry claims -/

/-- Looking up past a key-free head segment. -/
theorem lookupA_append_right {α : Type} (l1 l2 : List (String × α)) (key : String)
    (h : lookupA l1 key = none) : lookupA (l1 ++ l2) key = lookupA l2 key := by
  induction l1 with
  | nil => simp
  | cons kv rest ih =>
    by_cases hk : kv.1 == key
    · simp [lookupA, hk] at h
    · simp only [lookupA, hk] at h
      simpa [lookupA, hk] using ih h

/-- Updating past a key-free head segment. -/
theorem updateA_append_right {α : Type} (l1 l2 : List (String × α)) (key : String)
    (f : α → α) (h : lookupA l1 key = none) :
    updateA (l1 ++ l2) key f = l1 ++ updateA l2 key f := by
  induction l1 with
  | nil => simp
  | cons kv rest ih =>
    by_cases hk : kv.1 == key
    · simp [lookupA, hk] at h
    · simp only [lookupA, hk] at h
      simp [updateA, hk, ih h]

/-- Looking up the key just updated. -/
theorem lookupA_updateA_self {α : Type} (l : List (String × α)) (key : String)
    (f : α → α) : lookupA (updateA l key f) key = (lookupA l key).map f := by
  induction l with
  | nil => simp [lookupA, updateA]
  | cons kv rest ih =>
    by_cases hk : kv.1 == key
    · simp [lookupA, updateA, hk]
    · simp [lookupA, updateA, hk, ih]

/-! ### Concrete fixtures used by witnesses and counterexamples -/

/-- A parse oracle that always reports a `SyntaxError`. -/
def ppNone : PyParse := fun _ => none

/-- A filesystem holding a single Python file with one debug statement. -/
def fsA : FS :=
  ⟨fun p => p == "a.py",
   fun p => if p == "a.py" then Except.ok "print(1)" else Except.error "missing"⟩

/-- A filesystem holding one excluded (vendored) Python file with a
debug statement. -/
def fsV : FS :=
  ⟨fun p => p == "vendor/x.py",
   fun p => if p == "vendor/x.py" then Except.ok "print(1)" else Except.error "missing"⟩

/-- `CleanupCommand.run` options with every flag off. -/
def opts0 : RunOpts := ⟨false, false, false, false, false, none⟩

/-! ### Claim C1 -/

/-- Claim C1, counterexample: one target file with one debug issue is
analyzed, yet the RunStatistics snapshot in the returned summary still
reports zero files processed and zero issues found — `run` never
accumulates into the engine's statistics. -/
theorem claim1_counterexample :
    (run ppNone fsA defaultPatternMatcher initStats [] ["a.py"] opts0).summary =
        some initStats ∧
    (run ppNone fsA defaultPatternMatcher initStats [] ["a.py"] opts0).files_analyzed = 1 ∧
    (run ppNone fsA defaultPatternMatcher initStats [] ["a.py"] opts0).issues_found = 1 ∧
    initStats.files_processed ≠ 1 ∧ initStats.issues_found ≠ 1 := by decide

/-- Claim C1 (amended): for every non-empty target list and every option
setting, `CleanupCommand.run` completes and returns a summary whose
`issues_fixed` is 0, whose `files_analyzed` is the length of the target
list, whose `issues_found` is the total of the per-file issue counts in
the details, and whose RunStatistics snapshot is the engine's
statistics unchanged — `run` performs no accumulation, so for a freshly
constructed command every snapshot counter stays 0 no matter how many
files were analyzed or how many issues were found. -/
theorem claim1_run_summary (pp : PyParse) (fs : FS) (pm : PatternMatcher)
    (engineStats : Stats) (cwdWalk : List (String × Except String String))
    (files : List String) (opts : RunOpts) (h : files ≠ []) :
    (run pp fs pm engineStats cwdWalk files opts).error = none ∧
    (run pp fs pm engineStats cwdWalk files opts).files_analyzed = files.length ∧
    (run pp fs pm engineStats cwdWalk files opts).issues_fixed = 0 ∧
    (run pp fs pm engineStats cwdWalk files opts).issues_found =
      ((run pp fs pm engineStats cwdWalk files opts).details.map
        (fun d => d.issues.length)).sum ∧
    (run pp fs pm engineStats cwdWalk files opts).summary = some engineStats := by
  have hne : files.isEmpty = false := by
    cases files with
    | nil => exact absurd rfl h
    | cons a l => rfl
  simp [run, hne, get_summary]

/-- Claim C1, witness. -/
theorem claim1_witness :
    (run ppNone fsA defaultPatternMatcher initStats [] ["a.py"] opts0).error = none ∧
    (run ppNone fsA defaultPatternMatcher initStats [] ["a.py"] opts0).files_analyzed =
      (["a.py"] : List String).length ∧
    (run ppNone fsA defaultPatternMatcher initStats [] ["a.py"] opts0).issues_fixed = 0 ∧
    (run ppNone fsA defaultPatternMatcher initStats [] ["a.py"] opts0).issues_found =
      ((run ppNone fsA defaultPatternMatcher initStats [] ["a.py"] opts0).details.map
        (fun d => d.issues.length)).sum ∧
    (run ppNone fsA defaultPatternMatcher initStats [] ["a.py"] opts0).summary =
      some initStats :=
  claim1_run_summary ppNone fsA defaultPatternMatcher initStats [] ["a.py"] opts0
    (by decide)

/-! ### Claim C2 -/

/-- Claim C2, counterexample: `"vendor/x.py"` matches the `"vendor/"`
exclusion rule, yet passing it explicitly to `CleanupCommand.run` reads
it and its debug issue shows up in the run's details —
`_process_file` applies no exclusion check. -/
theorem claim2_counterexample :
    is_excluded defaultConfig "vendor/x.py" = true ∧
    ((run ppNone fsV defaultPatternMatcher initStats [] ["vendor/x.py"] opts0).details.map
      (fun d => d.issues.length)) = [1] := by decide

/-- Claim C2 (amended): `CleanupEngine.analyze_file` checks exclusion
before any read — for an excluded path it returns the skipped marker
and leaves the statistics untouched, for every filesystem state — but
`CleanupCommand.run` applies no exclusion check to explicitly supplied
target files (each is handed to `CodeAnalyzer.analyze`, which performs
none either), so an excluded path passed directly is read and its
issues appear in the run's details; the RunStatistics are still not
incremented on its account, since `run` never updates them at all. -/
theorem claim2_engine_exclusion (cfg : CleanupConfig) (stats : Stats) (fs : FS)
    (p : String) (h : is_excluded cfg p = true) :
    engineAnalyzeFile cfg stats fs p = (EngineResult.skipped "excluded", stats) := by
  simp [engineAnalyzeFile, h]

/-- Claim C2, witness. -/
theorem claim2_witness :
    engineAnalyzeFile defaultConfig initStats fsV "vendor/x.py" =
      (EngineResult.skipped "excluded", initStats) :=
  claim2_engine_exclusion defaultConfig initStats fsV "vendor/x.py" (by decide)

/-! ### Claim C3 -/

/-- Claim C3, counterexample: on content whose second line matches the
first python debug pattern and whose first line matches a later one,
`find_patterns` reports line 2 before line 1 — the record sequence is
not ordered by ascending line number. -/
theorem claim3_counterexample :
    ((find_patterns defaultPatternMatcher "import pdb\nprint(" "debug"
      (some "python")).filterMap Issue.line) = [2, 1] ∧
    ¬ (((find_patterns defaultPatternMatcher "import pdb\nprint(" "debug"
        (some "python")).filterMap Issue.line).Pairwise (· ≤ ·)) := by decide

/-- Claim C3 (amended): the scanner's records are grouped by pattern in
pattern-list order — the output is the concatenation, over the selected
patterns in order, of that pattern's records — and within one
pattern's group the line numbers are strictly increasing.  (In
particular two records on the same line from different patterns appear
in pattern-list order, but globally the sequence is not sorted by line
number.) -/
theorem claim3_scan_order (pm : PatternMatcher) (content : String)
    (pattern_type : String) (language : Option String) :
    find_patterns pm content pattern_type language =
      (patternsFor pm pattern_type language).flatMap
        (fun pat => scanOne true true pat (pySplitlines content) pattern_type) ∧
    ∀ (ci withPat : Bool) (pat t : String) (lines : List String),
      ((scanOne ci withPat pat lines t).filterMap Issue.line).Pairwise (· < ·) :=
  ⟨scanFold_eq_flatMap true true (patternsFor pm pattern_type language)
      (pySplitlines content) pattern_type,
   fun ci withPat pat t lines => scanOne_lines_sorted ci withPat pat lines t⟩

/-! ### Claim C4 -/

/-- Claim C4: the line scanner emits exactly one record per occurrence
of a pattern in the pattern list and per line that pattern matches:
every record comes from a matching (pattern, line) pair; the number of
records carrying a pattern is its multiplicity in the list times the
number of matching lines — hence exactly the number of matching lines
for a pattern occurring once — and empty content yields the empty
sequence rather than an error. -/
theorem claim4_scan_counts (P : List String) (C : String) (t : String) :
    (∀ r ∈ scanFold true true P (pySplitlines C) t,
      ∃ pat ∈ P, ∃ il ∈ enum1 1 (pySplitlines C), reSearch true pat il.2 = true ∧
        r = ⟨some il.1, pyStrip il.2, some pat, t⟩) ∧
    (∀ pat : String,
      ((scanFold true true P (pySplitlines C) t).filter
          (fun r => r.pattern == some pat)).length =
        P.count pat *
          ((pySplitlines C).filter (fun line => reSearch true pat line)).length) ∧
    (∀ pat : String, P.count pat = 1 →
      ((scanFold true true P (pySplitlines C) t).filter
          (fun r => r.pattern == some pat)).length =
        ((pySplitlines C).filter (fun line => reSearch true pat line)).length) ∧
    scanFold true true P (pySplitlines "") t = [] := by
  refine ⟨?_, ?_, ?_, ?_⟩
  · intro r hr
    rw [scanFold_eq_flatMap] at hr
    obtain ⟨pat, hpat, hr⟩ := List.mem_flatMap.mp hr
    refine ⟨pat, hpat, ?_⟩
    unfold scanOne at hr
    obtain ⟨il, hil, hsome⟩ := List.mem_filterMap.mp hr
    by_cases hm : reSearch true pat il.2 = true
    · rw [if_pos hm] at hsome
      exact ⟨il, hil, hm, (Option.some_inj.mp hsome).symm⟩
    · rw [if_neg hm] at hsome
      exact absurd hsome (Option.noConfusion)
  · intro pat
    exact scanFold_count P (pySplitlines C) t pat
  · intro pat h1
    rw [scanFold_count P (pySplitlines C) t pat, h1, Nat.one_mul]
  · have hempty : pySplitlines "" = [] := rfl
    rw [hempty, scanFold_eq_flatMap]
    apply List.flatMap_eq_nil_iff.mpr
    intro pat _
    rfl

/-- Claim C4, witness: a single pattern occurring once, matched case-
insensitively on two of three lines. -/
theorem claim4_witness :
    ((scanFold true true ["print\\s*\\("] (pySplitlines "print(\nx\nPRINT (")
        "debug").filter (fun r => r.pattern == some "print\\s*\\(")).length =
      ((pySplitlines "print(\nx\nPRINT (").filter
        (fun line => reSearch true "print\\s*\\(" line)).length :=
  (claim4_scan_counts ["print\\s*\\("] "print(\nx\nPRINT (" "debug").2.2.1
    "print\\s*\\(" (by decide)

/-! ### Claim C5 -/

/-- Claim C5, counterexample: `add_custom_pattern` does not succeed for
every category/language combination — it raises for a brand-new
category with no language (`AttributeError`: the fresh bucket is a
dict), for the seeded `debug` category with no language, and for the
seeded `todo` category with a language (`TypeError`). -/
theorem claim5_counterexample :
    add_custom_pattern defaultPatternMatcher "custom" "pat" none = none ∧
    add_custom_pattern defaultPatternMatcher "debug" "foo\\(" none = none ∧
    add_custom_pattern defaultPatternMatcher "todo" "NB:" (some "python") = none := by
  decide

/-- Claim C5 (amended): registration appends without deduplication, but
only in the defined cases.  With a (non-empty) language it succeeds:
a new category gets a fresh language-keyed bucket holding the pattern,
and an existing dict bucket gets the pattern appended to the language's
list (created empty first if needed).  With no language it succeeds
exactly on a flat-list bucket (such as `todo`), appending the pattern —
registering the same pattern twice appends it twice.  It raises (and
returns no registry) with no language on a new category or a dict
bucket, and with a language on a flat bucket. -/
theorem claim5_register (pm : PatternMatcher) (cat pat lang : String) :
    (lang.isEmpty = false → lookupA pm.patterns cat = none →
      add_custom_pattern pm cat pat (some lang) =
        some ⟨pm.patterns ++ [(cat, Bucket.dict [(lang, [pat])])]⟩) ∧
    (∀ d, lang.isEmpty = false → lookupA pm.patterns cat = some (Bucket.dict d) →
      ∃ pm2 d2, add_custom_pattern pm cat pat (some lang) = some pm2 ∧
        lookupA pm2.patterns cat = some (Bucket.dict d2) ∧
        lookupA d2 lang = some ((lookupA d lang).getD [] ++ [pat])) ∧
    (∀ l, lookupA pm.patterns cat = some (Bucket.flat l) →
      ∃ pm2, add_custom_pattern pm cat pat none = some pm2 ∧
        lookupA pm2.patterns cat = some (Bucket.flat (l ++ [pat]))) ∧
    (∀ l, lookupA pm.patterns cat = some (Bucket.flat l) →
      ∃ pm2 pm3, add_custom_pattern pm cat pat none = some pm2 ∧
        add_custom_pattern pm2 cat pat none = some pm3 ∧
        lookupA pm3.patterns cat = some (Bucket.flat (l ++ [pat] ++ [pat]))) ∧
    (lookupA pm.patterns cat = none → add_custom_pattern pm cat pat none = none) ∧
    (∀ d, lookupA pm.patterns cat = some (Bucket.dict d) →
      add_custom_pattern pm cat pat none = none) ∧
    (∀ l, lang.isEmpty = false → lookupA pm.patterns cat = some (Bucket.flat l) →
      add_custom_pattern pm cat pat (some lang) = none) := by
  have flatCase : ∀ (q : PatternMatcher) (l : List String),
      lookupA q.patterns cat = some (Bucket.flat l) →
      add_custom_pattern q cat pat none =
        some ⟨updateA q.patterns cat (fun _ => Bucket.flat (l ++ [pat]))⟩ ∧
      lookupA (updateA q.patterns cat (fun _ => Bucket.flat (l ++ [pat]))) cat =
        some (Bucket.flat (l ++ [pat])) := by
    intro q l h
    constructor
    · simp [add_custom_pattern, h, pyTruthy]
    · rw [lookupA_updateA_self, h]; rfl
  refine ⟨?_, ?_, ?_, ?_, ?_, ?_, ?_⟩
  · intro hl h
    have h1 : lookupA (pm.patterns ++ [(cat, Bucket.dict [])]) cat =
        some (Bucket.dict []) := by
      rw [lookupA_append_right _ _ _ h]; simp [lookupA]
    have h2 : updateA (pm.patterns ++ [(cat, Bucket.dict [])]) cat
        (fun _ => Bucket.dict [(lang, [pat])]) =
        pm.patterns ++ [(cat, Bucket.dict [(lang, [pat])])] := by
      rw [updateA_append_right _ _ _ _ h]; simp [updateA]
    simp [add_custom_pattern, h, pyTruthy, hl, h1, lookupA, updateA, h2]
  · intro d hl h
    have hd2 : ∀ d2 : List (String × List String),
        d2 = updateA (if (lookupA d lang).isNone then d ++ [(lang, [])] else d) lang
          (fun l => l ++ [pat]) →
        lookupA d2 lang = some ((lookupA d lang).getD [] ++ [pat]) := by
      intro d2 hd2eq
      subst hd2eq
      rw [lookupA_updateA_self]
      cases hd : lookupA d lang with
      | some l0 => simp [hd]
      | none =>
        simp only [hd, Option.isNone_none, if_pos]
        rw [lookupA_append_right _ _ _ hd]
        simp [lookupA, Option.getD]
    refine ⟨⟨updateA pm.patterns cat (fun _ => Bucket.dict (updateA
        (if (lookupA d lang).isNone then d ++ [(lang, [])] else d) lang
        (fun l => l ++ [pat])))⟩,
      updateA (if (lookupA d lang).isNone then d ++ [(lang, [])] else d) lang
        (fun l => l ++ [pat]), ?_, ?_, hd2 _ rfl⟩
    · simp [add_custom_pattern, h, pyTruthy, hl]
    · rw [lookupA_updateA_self, h]; rfl
  · intro l h
    exact ⟨_, (flatCase pm l h).1, (flatCase pm l h).2⟩
  · intro l h
    obtain ⟨hadd1, hlook1⟩ := flatCase pm l h
    obtain ⟨hadd2, hlook2⟩ :=
      flatCase ⟨updateA pm.patterns cat (fun _ => Bucket.flat (l ++ [pat]))⟩
        (l ++ [pat]) hlook1
    exact ⟨_, _, hadd1, hadd2, hlook2⟩
  · intro h
    have h1 : lookupA (pm.patterns ++ [(cat, Bucket.dict [])]) cat =
        some (Bucket.dict []) := by
      rw [lookupA_append_right _ _ _ h]; simp [lookupA]
    simp [add_custom_pattern, h, pyTruthy, h1]
  · intro d h
    simp [add_custom_pattern, h, pyTruthy]
  · intro l hl h
    simp [add_custom_pattern, h, pyTruthy, hl]

/-- Claim C5, witness: registering the same pattern twice under `todo`
with no language appends it twice — the seeded flat bucket grows by one
copy per call. -/
theorem claim5_witness :
    ∃ pm2 pm3, add_custom_pattern defaultPatternMatcher "todo" "NB:" none = some pm2 ∧
      add_custom_pattern pm2 "todo" "NB:" none = some pm3 ∧
      lookupA pm3.patterns "todo" =
        some (Bucket.flat (defaultTodoPatterns ++ ["NB:"] ++ ["NB:"])) :=
  (claim5_register defaultPatternMatcher "todo" "NB:" "x").2.2.2.1 defaultTodoPatterns
    (by decide)

/-! ### Claim C6 -/

/-- Claim C6: `CodeAnalyzer.analyze` never raises: a missing path gives
the bare result whose `error` is `"File not found"` with nothing else
populated; a failing read gives a result with the path and language set,
the issues collected before the failure (none — the read is the first
fallible step inside the guarded block), and `error` the failure's
message; a successful read produces a result with no `error` field. -/
theorem claim6_analyze_errors (pp : PyParse) (fs : FS) (pm : PatternMatcher)
    (path : String) :
    (fs.pathExists path = false →
      analyze pp fs pm path = ⟨none, none, [], none, none, some "File not found"⟩) ∧
    (∀ e, fs.pathExists path = true → fs.read path = Except.error e →
      analyze pp fs pm path =
        ⟨some path, some (detect_language path), [], none, none, some e⟩) ∧
    (∀ c, fs.pathExists path = true → fs.read path = Except.ok c →
      (analyze pp fs pm path).error = none) := by
  refine ⟨?_, ?_, ?_⟩
  · intro h
    simp [analyze, h]
  · intro e h1 h2
    simp [analyze, h1, h2]
  · intro c h1 h2
    simp [analyze, h1, h2]

/-- Equality of read results is decidable (used by concrete witnesses). -/
instance exceptStringDecEq : DecidableEq (Except String String) := fun x y =>
  match x, y with
  | Except.ok a, Except.ok b =>
    if h : a = b then isTrue (by rw [h]) else isFalse (by simp [h])
  | Except.error a, Except.error b =>
    if h : a = b then isTrue (by rw [h]) else isFalse (by simp [h])
  | Except.ok _, Except.error _ => isFalse (by simp)
  | Except.error _, Except.ok _ => isFalse (by simp)

/-- A filesystem with one missing, one unreadable and one readable file. -/
def fsErr : FS :=
  ⟨fun p => p == "bad.py" || p == "ok.py",
   fun p =>
     if p == "bad.py" then Except.error "boom"
     else if p == "ok.py" then Except.ok "print(" else Except.error "missing"⟩

/-- Claim C6, witness: the three failure-handling branches at concrete
paths of `fsErr`. -/
theorem claim6_witness :
    analyze ppNone fsErr defaultPatternMatcher "gone.py" =
      ⟨none, none, [], none, none, some "File not found"⟩ ∧
    analyze ppNone fsErr defaultPatternMatcher "bad.py" =
      ⟨some "bad.py", some (detect_language "bad.py"), [], none, none, some "boom"⟩ ∧
    (analyze ppNone fsErr defaultPatternMatcher "ok.py").error = none :=
  ⟨(claim6_analyze_errors ppNone fsErr defaultPatternMatcher "gone.py").1 (by decide),
   (claim6_analyze_errors ppNone fsErr defaultPatternMatcher "bad.py").2.1 "boom"
     (by decide) (by decide),
   (claim6_analyze_errors ppNone fsErr defaultPatternMatcher "ok.py").2.2 "print("
     (by decide) (by decide)⟩

/-! ### Claim C7 -/

/-- The file content of the specification's unused-import scenario. -/
def demoContent : String :=
  "import os\nimport sys\n\ndef f():\n    print(sys.version)\n"

/-- The walked syntax-tree nodes of `demoContent`: two imports binding
`os` and `sys`, a function definition, and the identifier references
`print` and `sys` (of `print(sys.version)`; `version` is an attribute
name, not an `ast.Name`). -/
def demoNodes : List PyNode :=
  [PyNode.other, PyNode.importStmt [("os", none)], PyNode.importStmt [("sys", none)],
   PyNode.functionDef, PyNode.other, PyNode.other, PyNode.name "print",
   PyNode.other, PyNode.name "sys"]

/-- A parse oracle knowing exactly the demo program. -/
def ppDemo : PyParse := fun c => if c == demoContent then some demoNodes else none

/-- A filesystem holding the demo program. -/
def fsDemo : FS :=
  ⟨fun p => p == "demo.py",
   fun p => if p == "demo.py" then Except.ok demoContent else Except.error "missing"⟩

/-- Claim C7: `find_unused_imports` returns the imported names never
referenced — an empty collection (without error) for a path not ending
in `.py` or for content that fails to parse, the set difference of
bound import names and referenced names on a successful parse, and in
particular exactly `os` for the scenario file importing `os` and `sys`
but referencing only `sys.version`. -/
theorem claim7_unused_imports (pp : PyParse) (fs : FS) (path : String) :
    (pyEndsWith path ".py" = false → find_unused_imports pp fs path = []) ∧
    (∀ c, pyEndsWith path ".py" = true → fs.read path = Except.ok c → pp c = none →
      find_unused_imports pp fs path = []) ∧
    (∀ c nodes, pyEndsWith path ".py" = true → fs.read path = Except.ok c →
      pp c = some nodes →
      ∀ x, x ∈ find_unused_imports pp fs path ↔
        x ∈ importedNames nodes ∧ x ∉ usedNames nodes) ∧
    (∀ c, pyEndsWith path ".py" = true → fs.read path = Except.ok c →
      pp c = some demoNodes → find_unused_imports pp fs path = ["os"]) := by
  refine ⟨?_, ?_, ?_, ?_⟩
  · intro h
    simp [find_unused_imports, h]
  · intro c h1 h2 h3
    simp [find_unused_imports, h1, h2, h3]
  · intro c nodes h1 h2 h3 x
    simp [find_unused_imports, h1, h2, h3, List.mem_filter]
  · intro c h1 h2 h3
    simp [find_unused_imports, h1, h2, h3]
    decide

/-- Claim C7, witness: the scenario file on `fsDemo` and the oracle
`ppDemo`, plus the non-reference-language branch. -/
theorem claim7_witness :
    find_unused_imports ppDemo fsDemo "demo.py" = ["os"] ∧
    find_unused_imports ppDemo fsDemo "app.js" = [] :=
  ⟨(claim7_unused_imports ppDemo fsDemo "demo.py").2.2.2 demoContent (by decide)
      (by decide) (by decide),
   (claim7_unused_imports ppDemo fsDemo "app.js").1 (by decide)⟩

/-! ### Claim C8 -/

/-- Claim C8: three identically-filled code files visited in the order
A, B, C yield exactly the pairs (A, B) and (A, C), both tagged
`exact_duplicate`, and never (B, C) — the first-seen file of the
fingerprint is the first element of every pair and is never reported as
the later duplicate. -/
theorem claim8_duplicates_first_seen (pA pB pC c : String)
    (hA : is_code_file pA = true) (hB : is_code_file pB = true)
    (hC : is_code_file pC = true) :
    find_duplicates [(pA, Except.ok c), (pB, Except.ok c), (pC, Except.ok c)] =
      [⟨pA, pB, "exact_duplicate"⟩, ⟨pA, pC, "exact_duplicate"⟩] := by
  simp [find_duplicates, findDuplicatesGo, hA, hB, hC, lookupA]

/-- Claim C8, witness: three concrete python files with the same text. -/
theorem claim8_witness :
    find_duplicates
        [("a.py", Except.ok "x = 1"), ("b.py", Except.ok "x = 1"),
         ("c.py", Except.ok "x = 1")] =
      [⟨"a.py", "b.py", "exact_duplicate"⟩, ⟨"a.py", "c.py", "exact_duplicate"⟩] :=
  claim8_duplicates_first_seen "a.py" "b.py" "c.py" "x = 1" (by decide) (by decide)
    (by decide)

/-! ### Claim C9 -/

/-- Claim C9: `_process_file` keeps the analyzer's issue list untouched
when none of the debug/todos/unused flags is set; with at least one
flag set it keeps exactly the issues whose category is requested
(debug records if and only if the debug flag, todo records if and only
if the todos flag), and when the unused flag is set it appends one
synthetic `unused_import` record per unused import for a `.py` path. -/
theorem claim9_filtering (pp : PyParse) (fs : FS) (pm : PatternMatcher)
    (opts : RunOpts) (path : String) :
    (opts.debug = false → opts.todos = false → opts.unused = false →
      process_file pp fs pm opts path = analyze pp fs pm path) ∧
    (opts.debug = true ∨ opts.todos = true ∨ opts.unused = true →
      (process_file pp fs pm opts path).issues =
        (analyze pp fs pm path).issues.filter
          (fun issue =>
            (opts.debug && issue.type == "debug") ||
              (opts.todos && issue.type == "todo")) ++
          (if opts.unused && pyEndsWith path ".py" then
            (find_unused_imports pp fs path).map mkUnusedIssue
          else [])) := by
  constructor
  · intro h1 h2 h3
    simp [process_file, h1, h2, h3]
  · intro h
    have hflag : (!opts.debug && !opts.todos && !opts.unused) = false := by
      rcases h with h | h | h <;> simp [h]
    by_cases hu : (opts.unused && pyEndsWith path ".py") = true
    · simp [process_file, hflag, hu]
    · simp only [Bool.not_eq_true] at hu
      simp [process_file, hflag, hu]

/-- Claim C9, witness: with only the unused flag set on the demo file,
every scanned issue is filtered out and the synthetic `unused_import`
record for `os` is appended. -/
theorem claim9_witness :
    (process_file ppDemo fsDemo defaultPatternMatcher
        ⟨false, false, false, true, false, none⟩ "demo.py").issues =
      (analyze ppDemo fsDemo defaultPatternMatcher "demo.py").issues.filter
        (fun issue =>
          ((⟨false, false, false, true, false, none⟩ : RunOpts).debug &&
              issue.type == "debug") ||
            ((⟨false, false, false, true, false, none⟩ : RunOpts).todos &&
              issue.type == "todo")) ++
        (if (⟨false, false, false, true, false, none⟩ : RunOpts).unused &&
            pyEndsWith "demo.py" ".py" then
          (find_unused_imports ppDemo fsDemo "demo.py").map mkUnusedIssue
        else []) :=
  (claim9_filtering ppDemo fsDemo defaultPatternMatcher
      ⟨false, false, false, true, false, none⟩ "demo.py").2 (Or.inr (Or.inr rfl))

/-! ### Claim C10 -/

/-- Claim C10: for every registry state — including any state reached
through `add_custom_pattern` — every content, and every language,
`find_patterns` returns the empty list whenever the requested category
is neither `debug` nor `todo`: the dispatch consults only those two
buckets, so patterns registered under any other category never produce
a match record. -/
theorem claim10_other_categories_empty (pm : PatternMatcher) (content : String)
    (language : Option String) (pattern_type : String)
    (h1 : pattern_type ≠ "debug") (h2 : pattern_type ≠ "todo") :
    find_patterns pm content pattern_type language = [] := by
  have b1 : (pattern_type == "debug") = false := by
    simpa using h1
  have b2 : (pattern_type == "todo") = false := by
    simpa using h2
  simp [find_patterns, patternsFor, b1, b2, scanFold]

/-- A registry extended with a custom category holding one pattern. -/
def pmCustom : PatternMatcher :=
  (add_custom_pattern defaultPatternMatcher "custom" "CUSTOM:" (some "python")).getD
    defaultPatternMatcher

/-- Claim C10, witness: even after registering `CUSTOM:` under the
`custom` category, scanning content that contains the marker under that
category yields nothing. -/
theorem claim10_witness :
    find_patterns pmCustom "x = 1  # CUSTOM: note" "custom" (some "python") = [] :=
  claim10_other_categories_empty pmCustom "x = 1  # CUSTOM: note" (some "python")
    "custom" (by decide) (by decide)

end CleanupToolkit
